import Mathlib

/-!
Verification of the risk_game repository (backend/risk_feature.py and
backend/arrow_pratt.py) against its natural-language specification.

Embedding conventions:
* Python floats that only undergo field arithmetic (risk_feature.py) are
  modelled as rationals `ℚ`, treating decimal literals as exact values;
  `ℚ` has no NaN or infinity, so "finite, never NaN" statements become
  range statements.
* arrow_pratt.py involves `exp`, `log` and real powers, so its values are
  modelled as `ℝ`.  The external SciPy call `minimize` is modelled by an
  abstract parameter `optimizer : Except String ℝ`: either the point
  `res.x[0]` the optimizer reports, or an exception escaping from it.
  The `initial_rho` argument is only consumed by `minimize`, so it is
  absorbed into that abstract outcome.
* Python exceptions are modelled with `Except`: `raise` becomes
  `Except.error`, a normal return becomes `Except.ok`.
* Division by zero in `ℚ`/`ℝ` is total (yields 0) where Python would raise
  `ZeroDivisionError`; the claims below never touch such a point.
-/

namespace RiskGame

namespace RiskFeature

/-- One entry of a `risky_options` list in risk_feature.py:
a dict `\x7b"prob": p, "value": v\x7d`. -/
structure RiskyOption where
  prob : ℚ
  value : ℚ
deriving DecidableEq

/-- One entry of `GAME_SCENARIOS_PROPERTIES` / `scenario_properties`:
a dict with keys `id`, `safe_value`, `risky_options`. -/
structure Scenario where
  id : ℕ
  safe_value : ℚ
  risky_options : List RiskyOption
deriving DecidableEq

/-- The fixed ten-scenario stake ladder `GAME_SCENARIOS_PROPERTIES`
(risk_feature.py lines 10-21). -/
def GAME_SCENARIOS_PROPERTIES : List Scenario :=
  [ ⟨1, 10, [⟨0.5, 30⟩, ⟨0.5, 0⟩]⟩,
    ⟨2, 15, [⟨0.5, 30⟩, ⟨0.5, 0⟩]⟩,
    ⟨3, 20, [⟨0.5, 40⟩, ⟨0.5, 0⟩]⟩,
    ⟨4, 25, [⟨0.5, 40⟩, ⟨0.5, 0⟩]⟩,
    ⟨5, 30, [⟨0.5, 50⟩, ⟨0.5, 0⟩]⟩,
    ⟨6, 35, [⟨0.5, 50⟩, ⟨0.5, 0⟩]⟩,
    ⟨7, 40, [⟨0.5, 60⟩, ⟨0.5, 0⟩]⟩,
    ⟨8, 45, [⟨0.5, 60⟩, ⟨0.5, 0⟩]⟩,
    ⟨9, 50, [⟨0.5, 70⟩, ⟨0.5, 0⟩]⟩,
    ⟨10, 55, [⟨0.5, 70⟩, ⟨0.5, 0⟩]⟩ ]

/-- `calculate_expected_value` (risk_feature.py lines 23-27): the running
sum `Σ option["prob"] * option["value"]`. -/
def calculate_expected_value (options : List RiskyOption) : ℚ :=
  (options.map (fun option => option.prob * option.value)).sum

/-- Errors raised by risk_feature.py: the `ValueError` at line 45 for a
choices/scenarios mismatch, the `ValueError` at line 134 for an unknown
game type. -/
inductive RiskError where
  | mismatch : RiskError
  | unknownGame : String → RiskError
deriving DecidableEq

/-- The body of the per-round loop of
`calculate_risk_game_score_with_aversion_formula`
(risk_feature.py lines 51-74), before the clip at line 76:
the round score for one (choice_made, scenario) pair. -/
def round_score (choice_made : String) (scenario : Scenario) : ℚ :=
  let safe_expected_value := scenario.safe_value
  let risky_expected_value := calculate_expected_value scenario.risky_options
  let certainty_equivalent := risky_expected_value - safe_expected_value
  if choice_made = "risky" then
    if 0 ≤ certainty_equivalent then
      0.6 + 0.4 * min 1 (max 0 (certainty_equivalent / (safe_expected_value + 1e-9)))
    else
      1
  else if choice_made = "safe" then
    if 0 ≤ certainty_equivalent then
      0.4 - 0.4 * min 1 (max 0 (certainty_equivalent / (risky_expected_value + 1e-9)))
    else
      0.2
  else
    -- neither branch taken: `round_score` keeps its initial value (line 56)
    0.5

/-- The clip `max(0.0, min(1.0, round_score))` applied when each round
score is appended (risk_feature.py line 76). -/
def clip01 (x : ℚ) : ℚ :=
  max 0 (min 1 x)

/-- `calculate_risk_game_score_with_aversion_formula`
(risk_feature.py lines 37-82).  The guard at line 44 raises on an empty
`choices` list or a length mismatch; past it, the loop at lines 50-76 is
rendered as a map over `choices.zip scenario_properties` (the guard
guarantees `scenario_properties[index]` exists for every index, so the
zip loses nothing).  The `if not round_scores: return 0.5` at lines 78-79
is kept even though the guard makes it unreachable. -/
def calculate_risk_game_score_with_aversion_formula
    (choices : List String) (scenario_properties : List Scenario) :
    Except RiskError ℚ :=
  if choices = [] ∨ choices.length ≠ scenario_properties.length then
    .error .mismatch
  else
    let round_scores :=
      (choices.zip scenario_properties).map
        (fun p => clip01 (round_score p.1 p.2))
    if round_scores = [] then
      .ok 0.5
    else
      .ok (round_scores.sum / round_scores.length)

/-- `single_shot` (risk_feature.py lines 84-85). -/
def single_shot (choice : String) : ℚ :=
  if choice = "risky" then 1 else 0

/-- The `try: choices.index("safe") except ValueError: len(choices)` of
`multi_shot_logic` (risk_feature.py lines 88-93): the zero-based index of
the first `"safe"` entry, or the length when there is none. -/
def switch_index : List String → ℕ
  | [] => 0
  | c :: rest => if c = "safe" then 0 else 1 + switch_index rest

/-- `multi_shot_logic` (risk_feature.py lines 87-97). -/
def multi_shot_logic (choices : List String) : ℚ :=
  if choices = [] then 0
  else (switch_index choices : ℚ) / (choices.length : ℚ)

/-- `slider_question` (risk_feature.py lines 99-100); the Python `prize`
default 100.0 is supplied explicitly at the call site. -/
def slider_question (certainty : ℚ) (prize : ℚ) : ℚ :=
  max 0 (min 1 ((prize - certainty) / prize))

/-- `balloon_question` (risk_feature.py lines 102-104); `max_safe`
default 20 supplied explicitly at the call site. -/
def balloon_question (pumps : ℤ) (popped : Bool) (max_safe : ℤ) : ℚ :=
  let effective := pumps + (if popped then 1 else 0)
  ((min effective max_safe : ℤ) : ℚ) / (max_safe : ℚ)

/-- `budget_split` (risk_feature.py lines 106-108); `total` default 100
supplied explicitly at the call site. -/
def budget_split (risky_tokens : ℤ) (total : ℤ) : ℚ :=
  (risky_tokens : ℚ) / (total : ℚ)

/-- The request dict consumed by `compute_risk`: each key the dispatcher
may read is a field.  (Python would raise `KeyError` on a missing key;
the model assumes the key needed by the selected branch is present.) -/
structure RequestPayload where
  game : String
  choice : String
  choices : List String
  certainty : ℚ
  pumps : ℤ
  popped : Bool
  risky_tokens : ℤ

/-- `compute_risk` (risk_feature.py lines 110-134).  The sequential
`if ... return` chain becomes an else-if chain; the `"risk"` branch calls
the heuristic scorer on the fixed ladder (the `calculate_risk_game_score_with_prat`
call there is commented out in the source), and the fall-through raises
`ValueError(f"Unknown game type: ...")`. -/
def compute_risk (request_payload : RequestPayload) : Except RiskError ℚ :=
  let game_type := request_payload.game
  if game_type = "single" then
    .ok (single_shot request_payload.choice)
  else if game_type = "multiple" then
    .ok (multi_shot_logic request_payload.choices)
  else if game_type = "slider" then
    .ok (slider_question request_payload.certainty 100)
  else if game_type = "balloon" then
    .ok (balloon_question request_payload.pumps request_payload.popped 20)
  else if game_type = "budget" then
    .ok (budget_split request_payload.risky_tokens 100)
  else if game_type = "risk" then
    calculate_risk_game_score_with_aversion_formula
      request_payload.choices GAME_SCENARIOS_PROPERTIES
  else
    .error (.unknownGame game_type)

end RiskFeature

namespace ArrowPratt

/-- One entry of a `risky_options` lottery as `_expected_utility`
(arrow_pratt.py lines 21-35) reads it: a payoff `value` and an optional
`prob` (the dict branch uses `item.get("prob", 1.0 / len(lottery))`). -/
structure LotteryOutcome where
  value : ℝ
  prob : Option ℝ

/-- A scenario as arrow_pratt.py reads it: keys `safe_value` and
`risky_options`. -/
structure Scenario where
  safe_value : ℝ
  risky_options : List LotteryOutcome

/-- `_crra_utility` (arrow_pratt.py lines 11-19). -/
noncomputable def crra_utility (x : ℝ) (rho : ℝ) : ℝ :=
  if rho = 1.0 then Real.log (max x 1e-9)
  else (max x 1e-9) ^ (1.0 - rho) / (1.0 - rho)

/-- `_expected_utility` (arrow_pratt.py lines 21-35): the accumulated
`Σ _crra_utility(payoff) * prob`, with the uniform default when `prob`
is absent. -/
noncomputable def expected_utility (lottery : List LotteryOutcome) (rho : ℝ) : ℝ :=
  (lottery.map
    (fun item => crra_utility item.value rho * item.prob.getD (1.0 / (lottery.length : ℝ)))).sum

/-- `_safe_sigmoid` (arrow_pratt.py lines 37-46). -/
noncomputable def safe_sigmoid (x : ℝ) : ℝ :=
  if x > 20 then 1.0
  else if x < -20 then 0.0
  else 1.0 / (1.0 + Real.exp (-x))

/-- `_choice_loglik` (arrow_pratt.py lines 49-79): clamps the temperature
(lines 59-63, `if temperature <= 1e-6: current_temp = 1e-6`), accumulates
`log(max(prob_chosen, 1e-9))` over the zipped (choice, scenario) pairs,
and returns the negated sum. -/
noncomputable def choice_loglik (rho : ℝ) (choices : List String)
    (scenarios : List Scenario) (temperature : ℝ) : ℝ :=
  let current_temp := if temperature ≤ 1e-6 then 1e-6 else temperature
  let ll := ((choices.zip scenarios).map (fun p =>
      let eu_safe := crra_utility p.2.safe_value rho
      let eu_risky := expected_utility p.2.risky_options rho
      let delta := (eu_risky - eu_safe) / current_temp
      let p_risky := safe_sigmoid delta
      let prob_chosen := if p.1 = "risky" then p_risky else 1.0 - p_risky
      Real.log (max prob_chosen 1e-9))).sum
  Neg.neg ll

/-- Modelled from the spec (§4.3): the same negative log-likelihood, but
with the temperature "clamped to a floor of 1e-6 if given non-positive"
and otherwise used as given — the behaviour the claim asserts of
`_choice_loglik`.  Only the clamp condition differs from `choice_loglik`. -/
noncomputable def choice_loglik_spec_clamp (rho : ℝ) (choices : List String)
    (scenarios : List Scenario) (temperature : ℝ) : ℝ :=
  let current_temp := if temperature ≤ 0 then 1e-6 else temperature
  let ll := ((choices.zip scenarios).map (fun p =>
      let eu_safe := crra_utility p.2.safe_value rho
      let eu_risky := expected_utility p.2.risky_options rho
      let delta := (eu_risky - eu_safe) / current_temp
      let p_risky := safe_sigmoid delta
      let prob_chosen := if p.1 = "risky" then p_risky else 1.0 - p_risky
      Real.log (max prob_chosen 1e-9))).sum
  Neg.neg ll

/-- Errors escaping `arrow_pratt_from_choices`: the input-contract
`ValueError` at line 99, or any other exception raised inside the
optimization (caught as generic `Exception` by the caller at line 171). -/
inductive EstErr where
  | contract : EstErr
  | numeric : String → EstErr
deriving DecidableEq

/-- The wealth-base resolution block of `arrow_pratt_from_choices`
(arrow_pratt.py lines 119-133): a supplied `wealth_base` is used as is;
otherwise it is the mean of the ladder's `safe_value`s, or 1.0 for an
empty ladder (the `np.isfinite` filter is vacuous over `ℝ`, so the
empty-`safe_values` fallback coincides with the empty-ladder one). -/
noncomputable def resolve_wealth_base (wealth_base : Option ℝ)
    (scenarios : List Scenario) : ℝ :=
  match wealth_base with
  | some w => w
  | none =>
    if scenarios.isEmpty then 1.0
    else ((scenarios.map (fun sc => sc.safe_value)).sum) / (scenarios.length : ℝ)

/-- `arrow_pratt_from_choices` (arrow_pratt.py lines 82-136).  The SciPy
`minimize` call (lines 103-108) is external; its outcome is the abstract
`optimizer` argument (the reported point `res.x[0]`, or an exception).
Non-convergence with a reported point is only a logged warning (lines
110-112), so it is the `.ok` case.  `rho_hat` is clipped into
`rho_bounds` (line 116); the wealth base is resolved by
`resolve_wealth_base` (lines 119-133). -/
noncomputable def arrow_pratt_from_choices
    (optimizer : Except String ℝ)
    (choices : List String) (scenarios : List Scenario)
    (wealth_base : Option ℝ) (rho_bounds : ℝ × ℝ) :
    Except EstErr (ℝ × ℝ) :=
  if choices = [] ∨ choices.length ≠ scenarios.length then
    .error .contract
  else
    match optimizer with
    | .error msg => .error (.numeric msg)
    | .ok x =>
      let rho_hat := max rho_bounds.1 (min x rho_bounds.2)
      let wb : ℝ := resolve_wealth_base wealth_base scenarios
      .ok (rho_hat, rho_hat / max wb 1e-6)

/-- `risk_index_from_choices` (arrow_pratt.py lines 138-181): the empty
short-circuit at lines 155-157, the `try/except` converting any estimator
error to 0.5 (lines 159-173), and the sigmoid transform
`1.0 / (1.0 + exp(rho_hat))` (line 178).  `initial_rho_for_estimation`
and `temperature_for_estimation` only feed `minimize` and are absorbed
into `optimizer`. -/
noncomputable def risk_index_from_choices
    (optimizer : Except String ℝ)
    (choices : List String) (scenarios : List Scenario)
    (wealth_base : Option ℝ) (rho_bounds_for_estimation : ℝ × ℝ) : ℝ :=
  if choices = [] then 0.5
  else
    match arrow_pratt_from_choices optimizer choices scenarios
        wealth_base rho_bounds_for_estimation with
    | .error _ => 0.5
    | .ok (rho_hat, _) => 1.0 / (1.0 + Real.exp rho_hat)

end ArrowPratt

/-! ## Helper lemmas -/

namespace RiskFeature

theorem switch_index_le_length (cs : List String) : switch_index cs ≤ cs.length := by
  induction cs with
  | nil => exact Nat.le_refl 0
  | cons c rest ih =>
    simp only [switch_index, List.length_cons]
    split
    · exact Nat.zero_le _
    · omega

theorem switch_index_cons_ne (c : String) (rest : List String) (h : c ≠ "safe") :
    switch_index (c :: rest) = 1 + switch_index rest := by
  simp [switch_index, h]

theorem switch_index_before (cs : List String) :
    ∀ i : ℕ, i < switch_index cs → cs.get? i ≠ some "safe" := by
  induction cs with
  | nil => intro i hi; simp [switch_index] at hi
  | cons c rest ih =>
    intro i hi
    by_cases hc : c = "safe"
    · simp [switch_index, hc] at hi
    · rw [switch_index_cons_ne c rest hc] at hi
      cases i with
      | zero => simpa using hc
      | succ j =>
        simp only [List.get?_cons_succ]
        exact ih j (by omega)

theorem switch_index_at (cs : List String) (h : switch_index cs < cs.length) :
    cs.get? (switch_index cs) = some "safe" := by
  induction cs with
  | nil => simp [switch_index] at h
  | cons c rest ih =>
    by_cases hc : c = "safe"
    · simp [switch_index, hc]
    · rw [switch_index_cons_ne c rest hc] at h ⊢
      have h' : switch_index rest < rest.length := by
        simp only [List.length_cons] at h
        omega
      rw [Nat.add_comm, List.get?_cons_succ]
      exact ih h'

theorem switch_index_of_not_mem (cs : List String) (h : "safe" ∉ cs) :
    switch_index cs = cs.length := by
  induction cs with
  | nil => rfl
  | cons c rest ih =>
    have hc : c ≠ "safe" := fun hc => h (hc ▸ List.mem_cons_self c rest)
    have hr : "safe" ∉ rest := fun hr => h (List.mem_cons_of_mem c hr)
    rw [switch_index_cons_ne c rest hc, ih hr, List.length_cons, Nat.add_comm]

theorem clip01_nonneg (x : ℚ) : 0 ≤ clip01 x :=
  le_max_left 0 _

theorem clip01_le_one (x : ℚ) : clip01 x ≤ 1 :=
  max_le (by norm_num) (min_le_left 1 x)

theorem le_clip01 (c x : ℚ) (hc1 : c ≤ 1) (hcx : c ≤ x) : c ≤ clip01 x :=
  le_trans (le_min hc1 hcx) (le_max_right 0 _)

theorem clip01_le (x c : ℚ) (hc : 0 ≤ c) (hxc : x ≤ c) : clip01 x ≤ c :=
  max_le hc (le_trans (min_le_right 1 x) hxc)

theorem unit_clip_bounds (x : ℚ) : 0 ≤ min 1 (max 0 x) ∧ min 1 (max 0 x) ≤ 1 :=
  ⟨le_min (by norm_num) (le_max_left 0 x), min_le_left 1 _⟩

theorem round_score_risky_eq (s : Scenario) : round_score "risky" s =
    (if 0 ≤ calculate_expected_value s.risky_options - s.safe_value then
      0.6 + 0.4 * min 1 (max 0 ((calculate_expected_value s.risky_options - s.safe_value) /
        (s.safe_value + 1e-9)))
    else 1) := rfl

theorem round_score_safe_eq (s : Scenario) : round_score "safe" s =
    (if 0 ≤ calculate_expected_value s.risky_options - s.safe_value then
      0.4 - 0.4 * min 1 (max 0 ((calculate_expected_value s.risky_options - s.safe_value) /
        (calculate_expected_value s.risky_options + 1e-9)))
    else 0.2) := rfl

theorem round_score_risky_bounds (s : Scenario) :
    0.6 ≤ round_score "risky" s ∧ round_score "risky" s ≤ 1 := by
  have hu := unit_clip_bounds
    ((calculate_expected_value s.risky_options - s.safe_value) / (s.safe_value + 1e-9))
  rw [round_score_risky_eq]
  split
  · constructor <;> nlinarith [hu.1, hu.2]
  · constructor <;> norm_num

theorem round_score_safe_bounds (s : Scenario) :
    0 ≤ round_score "safe" s ∧ round_score "safe" s ≤ 0.4 := by
  have hu := unit_clip_bounds
    ((calculate_expected_value s.risky_options - s.safe_value) /
      (calculate_expected_value s.risky_options + 1e-9))
  rw [round_score_safe_eq]
  split
  · constructor <;> nlinarith [hu.1, hu.2]
  · constructor <;> norm_num

theorem clip01_of_bounds (x : ℚ) (h0 : 0 ≤ x) (h1 : x ≤ 1) : clip01 x = x := by
  unfold clip01
  rw [min_eq_right h1, max_eq_right h0]

/-! ## Claim theorems (risk_feature.py) -/

/-- Claim C1, counterexample: on an empty choices sequence the heuristic
scorer raises the mismatch `ValueError` (the guard at risk_feature.py
line 44 tests `not choices` first); it does not return the neutral score
0.5, contrary to the claim. -/
theorem C1_counterexample :
    calculate_risk_game_score_with_aversion_formula [] GAME_SCENARIOS_PROPERTIES
      = .error .mismatch ∧
    ∀ q : ℚ, calculate_risk_game_score_with_aversion_formula [] GAME_SCENARIOS_PROPERTIES
      ≠ .ok q :=
  ⟨rfl, fun _ h => nomatch h⟩

/-- Claim C1 (amended): in the heuristic expected-value scoring path
(`calculate_risk_game_score_with_aversion_formula`), an empty choices
sequence raises the same hard contract error as a non-empty choices
sequence whose length differs from the scenario ladder's length; the
`return 0.5` branch for an empty round list is unreachable dead code. -/
theorem C1_empty_or_mismatch_raises (choices : List String)
    (scenario_properties : List Scenario)
    (h : choices = [] ∨ choices.length ≠ scenario_properties.length) :
    calculate_risk_game_score_with_aversion_formula choices scenario_properties
      = .error .mismatch := by
  unfold calculate_risk_game_score_with_aversion_formula
  rw [if_pos h]

/-- Witness for C1: a one-element choices list against the ten-scenario
ladder violates the length contract and raises. -/
theorem C1_witness :
    ((["risky"] : List String) = [] ∨
      (["risky"] : List String).length ≠ GAME_SCENARIOS_PROPERTIES.length) ∧
    calculate_risk_game_score_with_aversion_formula ["risky"] GAME_SCENARIOS_PROPERTIES
      = .error .mismatch :=
  ⟨Or.inr (by decide),
   C1_empty_or_mismatch_raises ["risky"] GAME_SCENARIOS_PROPERTIES (Or.inr (by decide))⟩

/-- Claim C5: for every request whose game-kind tag is not one of the
recognized kinds (single, multiple, slider, balloon, budget, risk), the
dispatcher `compute_risk` raises a hard contract error and never returns
a default score. -/
theorem C5_unknown_game_type_raises (p : RequestPayload)
    (h : p.game ∉ ["single", "multiple", "slider", "balloon", "budget", "risk"]) :
    compute_risk p = .error (.unknownGame p.game) := by
  simp only [List.mem_cons, List.not_mem_nil, or_false] at h
  push_neg at h
  obtain ⟨h1, h2, h3, h4, h5, h6⟩ := h
  simp only [compute_risk, if_neg h1, if_neg h2, if_neg h3, if_neg h4, if_neg h5, if_neg h6]

/-- Witness for C5: the tag "lottery" is unrecognized and is rejected. -/
theorem C5_witness :
    (("lottery" : String) ∉ ["single", "multiple", "slider", "balloon", "budget", "risk"]) ∧
    compute_risk ⟨"lottery", "risky", [], 0, 0, false, 0⟩
      = .error (.unknownGame "lottery") :=
  ⟨by decide, C5_unknown_game_type_raises ⟨"lottery", "risky", [], 0, 0, false, 0⟩ (by decide)⟩

/-- Claim C6: in the heuristic expected-value path, for every round whose
scenario has `ce = EV(risky) - safe_value < 0`, choosing safe yields a
round score of exactly 0.2 and choosing risky yields exactly 1.0,
independent of the magnitude of `ce`. -/
theorem C6_negative_ce_exact_scores (scenario : Scenario)
    (h : calculate_expected_value scenario.risky_options - scenario.safe_value < 0) :
    clip01 (round_score "safe" scenario) = 0.2 ∧
    clip01 (round_score "risky" scenario) = 1 := by
  have h' : ¬ (0 ≤ calculate_expected_value scenario.risky_options - scenario.safe_value) :=
    not_le.mpr h
  rw [round_score_safe_eq, round_score_risky_eq, if_neg h', if_neg h']
  constructor <;> exact clip01_of_bounds _ (by norm_num) (by norm_num)

/-- Witness for C6: ladder scenario 4 (safe value 25, risky EV 20) has a
negative EV gap, so safe scores 0.2 and risky scores 1.0 there. -/
theorem C6_witness :
    (calculate_expected_value (⟨4, 25, [⟨0.5, 40⟩, ⟨0.5, 0⟩]⟩ : Scenario).risky_options
      - (⟨4, 25, [⟨0.5, 40⟩, ⟨0.5, 0⟩]⟩ : Scenario).safe_value < 0) ∧
    clip01 (round_score "safe" ⟨4, 25, [⟨0.5, 40⟩, ⟨0.5, 0⟩]⟩) = 0.2 ∧
    clip01 (round_score "risky" ⟨4, 25, [⟨0.5, 40⟩, ⟨0.5, 0⟩]⟩) = 1 :=
  ⟨by norm_num [calculate_expected_value],
   C6_negative_ce_exact_scores ⟨4, 25, [⟨0.5, 40⟩, ⟨0.5, 0⟩]⟩
     (by norm_num [calculate_expected_value])⟩

/-- Claim C7: the switch-point scorer `multi_shot_logic` returns, for
every non-empty choices sequence, the zero-based index of the first
"safe" choice divided by the sequence length (`switch_index` is that
first index: no earlier position holds "safe", and the position itself
holds "safe" when it is in range), returns 1.0 when no choice is "safe",
and returns 0.0 for the empty sequence; in particular
[risky,risky,safe,safe] scores 0.5 and [risky,risky,risky,risky]
scores 1.0. -/
theorem C7_switch_point_scorer :
    (∀ cs : List String, cs ≠ [] →
      multi_shot_logic cs = (switch_index cs : ℚ) / (cs.length : ℚ) ∧
      (∀ i : ℕ, i < switch_index cs → cs.get? i ≠ some "safe") ∧
      (switch_index cs < cs.length → cs.get? (switch_index cs) = some "safe")) ∧
    (∀ cs : List String, cs ≠ [] → "safe" ∉ cs → multi_shot_logic cs = 1) ∧
    multi_shot_logic [] = 0 ∧
    multi_shot_logic ["risky", "risky", "safe", "safe"] = 0.5 ∧
    multi_shot_logic ["risky", "risky", "risky", "risky"] = 1 := by
  refine ⟨fun cs hne => ⟨?_, switch_index_before cs, switch_index_at cs⟩,
    fun cs hne hnm => ?_, rfl, ?_, ?_⟩
  · unfold multi_shot_logic
    rw [if_neg hne]
  · unfold multi_shot_logic
    rw [if_neg hne, switch_index_of_not_mem cs hnm]
    have : (cs.length : ℚ) ≠ 0 := by
      exact_mod_cast Nat.pos_iff_ne_zero.mp (List.length_pos.mpr hne)
    field_simp
  · simp [multi_shot_logic, switch_index]
    norm_num
  · simp [multi_shot_logic, switch_index]

/-- Witness for C7: the hypothesis-bearing parts applied at concrete
sequences. -/
theorem C7_witness :
    (multi_shot_logic ["risky", "safe"]
      = (switch_index ["risky", "safe"] : ℚ) / ((["risky", "safe"] : List String).length : ℚ)) ∧
    multi_shot_logic ["risky", "risky"] = 1 :=
  ⟨(C7_switch_point_scorer.1 ["risky", "safe"] (by decide)).1,
   C7_switch_point_scorer.2.1 ["risky", "risky"] (by decide) (by decide)⟩

/-- Claim C8: under the per-kind preconditions of the dispatch table
(certainty in [0, prize]; pumps ≥ 0; risky_tokens in [0, total]; defaults
prize = 100, max_safe = 20, total = 100), each closed-form scoring rule
returns a value in [0, 1].  Over `ℚ` every value is finite and there is
no NaN, so the range statement is the whole "finite, never NaN, in
[0,1]" contract. -/
theorem C8_closed_form_rules_in_range :
    (∀ choice : String, 0 ≤ single_shot choice ∧ single_shot choice ≤ 1) ∧
    (∀ cs : List String, 0 ≤ multi_shot_logic cs ∧ multi_shot_logic cs ≤ 1) ∧
    (∀ certainty : ℚ, 0 ≤ certainty → certainty ≤ 100 →
      0 ≤ slider_question certainty 100 ∧ slider_question certainty 100 ≤ 1) ∧
    (∀ (pumps : ℤ) (popped : Bool), 0 ≤ pumps →
      0 ≤ balloon_question pumps popped 20 ∧ balloon_question pumps popped 20 ≤ 1) ∧
    (∀ risky_tokens : ℤ, 0 ≤ risky_tokens → risky_tokens ≤ 100 →
      0 ≤ budget_split risky_tokens 100 ∧ budget_split risky_tokens 100 ≤ 1) := by
  refine ⟨fun choice => ?_, fun cs => ?_, fun certainty h0 h100 => ?_,
    fun pumps popped hp => ?_, fun risky_tokens h0 h100 => ?_⟩
  · unfold single_shot
    split <;> norm_num
  · unfold multi_shot_logic
    split
    · norm_num
    · rename_i hne
      constructor
      · exact div_nonneg (Nat.cast_nonneg _) (Nat.cast_nonneg _)
      · rw [div_le_one (by exact_mod_cast List.length_pos.mpr hne)]
        exact_mod_cast switch_index_le_length cs
  · unfold slider_question
    exact ⟨le_max_left _ _, max_le (by norm_num) (min_le_left _ _)⟩
  · simp only [balloon_question]
    have heff : (0 : ℤ) ≤ pumps + (if popped then 1 else 0) := by
      split <;> omega
    have hmin0 : (0 : ℤ) ≤ min (pumps + (if popped then 1 else 0)) 20 :=
      le_min heff (by norm_num)
    have hmin20 : min (pumps + (if popped then 1 else 0)) 20 ≤ 20 := min_le_right _ _
    constructor
    · exact div_nonneg (by exact_mod_cast hmin0) (by norm_num)
    · rw [div_le_one (by norm_num)]
      exact_mod_cast hmin20
  · unfold budget_split
    constructor
    · exact div_nonneg (by exact_mod_cast h0) (by norm_num)
    · rw [div_le_one (by norm_num)]
      exact_mod_cast h100

/-- Witness for C8: the bounds at concrete in-contract inputs. -/
theorem C8_witness :
    (0 ≤ slider_question 30 100 ∧ slider_question 30 100 ≤ 1) ∧
    (0 ≤ balloon_question 25 true 20 ∧ balloon_question 25 true 20 ≤ 1) ∧
    (0 ≤ budget_split 30 100 ∧ budget_split 30 100 ≤ 1) :=
  ⟨C8_closed_form_rules_in_range.2.2.1 30 (by norm_num) (by norm_num),
   C8_closed_form_rules_in_range.2.2.2.1 25 true (by norm_num),
   C8_closed_form_rules_in_range.2.2.2.2 30 (by norm_num) (by norm_num)⟩

/-- Claim C10: in the heuristic expected-value path, every risky round
score (after the per-round clip) lies in [0.6, 1.0] and every safe round
score lies in [0.0, 0.4]; hence each risky round's score strictly
exceeds each safe round's score, for all scenarios. -/
theorem C10_risky_rounds_beat_safe_rounds (s1 s2 : Scenario) :
    (0.6 ≤ clip01 (round_score "risky" s1) ∧ clip01 (round_score "risky" s1) ≤ 1) ∧
    (0 ≤ clip01 (round_score "safe" s2) ∧ clip01 (round_score "safe" s2) ≤ 0.4) ∧
    clip01 (round_score "safe" s2) < clip01 (round_score "risky" s1) := by
  have hr := round_score_risky_bounds s1
  have hs := round_score_safe_bounds s2
  have hr1 : (0.6 : ℚ) ≤ clip01 (round_score "risky" s1) :=
    le_clip01 _ _ (by norm_num) hr.1
  have hs2 : clip01 (round_score "safe" s2) ≤ 0.4 :=
    clip01_le _ _ (by norm_num) hs.2
  exact ⟨⟨hr1, clip01_le_one _⟩, ⟨clip01_nonneg _, hs2⟩,
    lt_of_le_of_lt hs2 (lt_of_lt_of_le (by norm_num) hr1)⟩

end RiskFeature

/-! ## Claim theorems (arrow_pratt.py) -/

namespace ArrowPratt

theorem arrow_pratt_ok_eq (x : ℝ) (choices : List String) (scenarios : List Scenario)
    (wealth_base : Option ℝ) (rho_bounds : ℝ × ℝ)
    (hne : choices ≠ []) (hlen : choices.length = scenarios.length) :
    arrow_pratt_from_choices (.ok x) choices scenarios wealth_base rho_bounds
      = .ok (max rho_bounds.1 (min x rho_bounds.2),
          max rho_bounds.1 (min x rho_bounds.2) /
            max (resolve_wealth_base wealth_base scenarios) 1e-6) := by
  unfold arrow_pratt_from_choices
  rw [if_neg (by push_neg; exact ⟨hne, hlen⟩)]

/-- Claim C2: `risk_index_from_choices` returns exactly 0.5 for an empty
choices sequence without invoking the Estimator (the result is 0.5 for
every possible optimizer outcome, by the short-circuit before the call),
and whenever the Estimator returns any error (contract or numeric) on a
non-empty input, it catches it and returns the neutral default 0.5
instead of propagating. -/
theorem C2_risk_index_fail_soft :
    (∀ (optimizer : Except String ℝ) (scenarios : List Scenario)
      (wealth_base : Option ℝ) (rho_bounds : ℝ × ℝ),
      risk_index_from_choices optimizer [] scenarios wealth_base rho_bounds = 0.5) ∧
    (∀ (optimizer : Except String ℝ) (choices : List String) (scenarios : List Scenario)
      (wealth_base : Option ℝ) (rho_bounds : ℝ × ℝ) (e : EstErr),
      choices ≠ [] →
      arrow_pratt_from_choices optimizer choices scenarios wealth_base rho_bounds
        = .error e →
      risk_index_from_choices optimizer choices scenarios wealth_base rho_bounds = 0.5) := by
  constructor
  · intro optimizer scenarios wealth_base rho_bounds
    unfold risk_index_from_choices
    rw [if_pos rfl]
  · intro optimizer choices scenarios wealth_base rho_bounds e hne herr
    unfold risk_index_from_choices
    rw [if_neg hne, herr]

/-- Witness for C2: the empty short-circuit, and a length-mismatched
input on which the Estimator errors and the index falls back to 0.5. -/
theorem C2_witness :
    risk_index_from_choices (.ok 0) [] [] none (-4, 4) = 0.5 ∧
    ((["risky"] : List String) ≠ [] ∧
      arrow_pratt_from_choices (.ok 0) ["risky"] [] none (-4, 4) = .error .contract ∧
      risk_index_from_choices (.ok 0) ["risky"] [] none (-4, 4) = 0.5) :=
  ⟨C2_risk_index_fail_soft.1 (.ok 0) [] none (-4, 4),
   by simp,
   by unfold arrow_pratt_from_choices; rw [if_pos (Or.inr (by simp))],
   C2_risk_index_fail_soft.2 (.ok 0) ["risky"] [] none (-4, 4) .contract (by simp)
     (by unfold arrow_pratt_from_choices; rw [if_pos (Or.inr (by simp))])⟩

/-- Claim C3: for every valid bounds pair (lo, hi) and every non-empty,
length-matched input, the `rho_hat` returned by the Estimator lies in
[lo, hi], whatever point the optimizer reports, because the result is
explicitly clipped into the bounds. -/
theorem C3_rho_hat_in_bounds (x lo hi : ℝ) (choices : List String)
    (scenarios : List Scenario) (wealth_base : Option ℝ) (res : ℝ × ℝ)
    (hne : choices ≠ []) (hlen : choices.length = scenarios.length) (hlohi : lo ≤ hi)
    (hres : arrow_pratt_from_choices (.ok x) choices scenarios wealth_base (lo, hi)
      = .ok res) :
    lo ≤ res.1 ∧ res.1 ≤ hi := by
  rw [arrow_pratt_ok_eq x choices scenarios wealth_base (lo, hi) hne hlen] at hres
  have h2 := Except.ok.inj hres
  rw [← h2]
  exact ⟨le_max_left lo _, max_le hlohi (min_le_right x hi)⟩

/-- Witness for C3: the optimizer reports 5, outside the bounds (-4, 4);
the returned point is the clipped value 4, inside the bounds. -/
theorem C3_witness :
    ((["risky"] : List String) ≠ [] ∧ (-4 : ℝ) ≤ 4) ∧
    (-4 ≤ (((4 : ℝ), (4 : ℝ)) : ℝ × ℝ).1 ∧ (((4 : ℝ), (4 : ℝ)) : ℝ × ℝ).1 ≤ 4) :=
  ⟨⟨by simp, by norm_num⟩,
   C3_rho_hat_in_bounds 5 (-4) 4 ["risky"] [⟨10, []⟩] (some 1) (4, 4)
     (by simp) (by simp) (by norm_num)
     (by
       rw [arrow_pratt_ok_eq 5 ["risky"] [⟨10, []⟩] (some 1) (-4, 4) (by simp) (by simp)]
       norm_num [resolve_wealth_base])⟩

/-- Claim C4: the Estimator `arrow_pratt_from_choices` returns the
input-contract error if and only if the choices sequence is empty or its
length differs from the scenarios sequence's length; the error is the
function's result (propagated to the caller), never recovered locally. -/
theorem C4_contract_error_iff (optimizer : Except String ℝ) (choices : List String)
    (scenarios : List Scenario) (wealth_base : Option ℝ) (rho_bounds : ℝ × ℝ) :
    arrow_pratt_from_choices optimizer choices scenarios wealth_base rho_bounds
        = .error .contract
      ↔ (choices = [] ∨ choices.length ≠ scenarios.length) := by
  unfold arrow_pratt_from_choices
  by_cases hcond : (choices = [] ∨ choices.length ≠ scenarios.length)
  · rw [if_pos hcond]
    simp [hcond]
  · rw [if_neg hcond]
    simp only [hcond, iff_false]
    cases optimizer with
    | error msg => simp
    | ok x => simp

theorem crra_utility_at_rho_zero (x : ℝ) (h : (1e-9 : ℝ) ≤ x) : crra_utility x 0 = x := by
  unfold crra_utility
  rw [if_neg (by norm_num), max_eq_left h]
  norm_num

theorem expected_utility_counterexample :
    expected_utility [⟨200001/200000, some 1⟩] 0 = 200001/200000 := by
  unfold expected_utility
  simp
  rw [crra_utility_at_rho_zero _ (by norm_num)]

theorem choice_loglik_code_at_small_temp :
    choice_loglik 0 ["risky"] [⟨1, [⟨200001/200000, some 1⟩]⟩] 1e-7
      = -(Real.log (1 / (1 + Real.exp (-5)))) := by
  unfold choice_loglik
  simp only [List.zip_cons_cons, List.zip_nil_right, List.map_cons, List.map_nil,
    List.sum_cons, List.sum_nil]
  rw [if_pos (by norm_num : (1e-7 : ℝ) ≤ 1e-6)]
  rw [expected_utility_counterexample, crra_utility_at_rho_zero 1 (by norm_num)]
  have hdelta : ((200001 : ℝ) / 200000 - 1) / 1e-6 = 5 := by norm_num
  rw [hdelta]
  have hsig : safe_sigmoid 5 = 1.0 / (1.0 + Real.exp (-5)) := by
    unfold safe_sigmoid
    rw [if_neg (by norm_num), if_neg (by norm_num)]
  rw [hsig]
  have hexp : (0 : ℝ) < Real.exp (-5) := Real.exp_pos _
  have hexp1 : Real.exp (-5) < 1 := by
    rw [show (1 : ℝ) = Real.exp 0 from Real.exp_zero.symm]
    exact Real.exp_lt_exp.mpr (by norm_num)
  have hp : (1e-9 : ℝ) ≤ 1.0 / (1.0 + Real.exp (-5)) := by
    rw [le_div_iff₀ (by linarith)]
    nlinarith
  rw [if_pos trivial, max_eq_left hp]
  norm_num

theorem choice_loglik_spec_at_small_temp :
    choice_loglik_spec_clamp 0 ["risky"] [⟨1, [⟨200001/200000, some 1⟩]⟩] 1e-7 = 0 := by
  unfold choice_loglik_spec_clamp
  simp only [List.zip_cons_cons, List.zip_nil_right, List.map_cons, List.map_nil,
    List.sum_cons, List.sum_nil]
  rw [if_neg (by norm_num : ¬ ((1e-7 : ℝ) ≤ 0))]
  rw [expected_utility_counterexample, crra_utility_at_rho_zero 1 (by norm_num)]
  have hdelta : ((200001 : ℝ) / 200000 - 1) / 1e-7 = 50 := by norm_num
  rw [hdelta]
  have hsig : safe_sigmoid 50 = 1.0 := by
    unfold safe_sigmoid
    rw [if_pos (by norm_num)]
  rw [hsig]
  rw [if_pos trivial, max_eq_left (by norm_num : (1e-9 : ℝ) ≤ 1.0)]
  norm_num

/-- Claim C9, counterexample: at the strictly positive temperature 1e-7,
`_choice_loglik` does not evaluate with the given temperature: on a
concrete one-round input its value differs from the spec-described
behaviour (clamping only non-positive temperatures), because the code
clamps every temperature ≤ 1e-6.  The code value is -log σ(5) > 0 while
the given-temperature value is -log σ(50) = -log 1 = 0. -/
theorem C9_counterexample :
    (0 : ℝ) < 1e-7 ∧
    choice_loglik 0 ["risky"] [⟨1, [⟨200001/200000, some 1⟩]⟩] 1e-7
      ≠ choice_loglik_spec_clamp 0 ["risky"] [⟨1, [⟨200001/200000, some 1⟩]⟩] 1e-7 := by
  refine ⟨by norm_num, ?_⟩
  rw [choice_loglik_code_at_small_temp, choice_loglik_spec_at_small_temp]
  have hexp : (0 : ℝ) < Real.exp (-5) := Real.exp_pos _
  have hlog : Real.log (1 / (1 + Real.exp (-5))) < 0 :=
    Real.log_neg (by positivity) (by rw [div_lt_one (by linarith)]; linarith)
  exact ne_of_gt (by linarith)

/-- Claim C9 (amended): `_choice_loglik` evaluates with the given
temperature whenever that temperature exceeds the floor 1e-6 (then it
agrees with the no-clamp-on-positive behaviour), and substitutes the
floor value 1e-6 exactly when the given temperature is ≤ 1e-6 — not only
when it is non-positive. -/
theorem C9_temperature_clamp (rho : ℝ) (choices : List String)
    (scenarios : List Scenario) (temperature : ℝ) :
    (1e-6 < temperature →
      choice_loglik rho choices scenarios temperature
        = choice_loglik_spec_clamp rho choices scenarios temperature) ∧
    (temperature ≤ 1e-6 →
      choice_loglik rho choices scenarios temperature
        = choice_loglik rho choices scenarios 1e-6) := by
  constructor
  · intro h
    unfold choice_loglik choice_loglik_spec_clamp
    rw [if_neg (not_le.mpr h), if_neg (not_le.mpr (lt_trans (by norm_num) h))]
  · intro h
    unfold choice_loglik
    rw [if_pos h, if_pos le_rfl]

/-- Witness for C9 (amended): at temperature 1 the clamp is inert; at
temperature 1e-7 the clamp substitutes 1e-6. -/
theorem C9_witness :
    ((1e-6 : ℝ) < 1 ∧
      choice_loglik 0 ["risky"] [⟨1, []⟩] 1
        = choice_loglik_spec_clamp 0 ["risky"] [⟨1, []⟩] 1) ∧
    ((1e-7 : ℝ) ≤ 1e-6 ∧
      choice_loglik 0 ["risky"] [⟨1, []⟩] 1e-7
        = choice_loglik 0 ["risky"] [⟨1, []⟩] 1e-6) :=
  ⟨⟨by norm_num, (C9_temperature_clamp 0 ["risky"] [⟨1, []⟩] 1).1 (by norm_num)⟩,
   ⟨by norm_num, (C9_temperature_clamp 0 ["risky"] [⟨1, []⟩] 1e-7).2 (by norm_num)⟩⟩

end ArrowPratt

end RiskGame
